import Mathlib

/-!
Shallow embedding of `src/AuthenticationMiddleware.ts` from
botbuilder-simple-authentication.

JavaScript strings are modelled by Lean `String` (character lists for the
query-string slicing, which mirrors `String.prototype.split`/`slice`).
A field that the source leaves `undefined` at runtime is modelled as an
`Option`.  External collaborators (the `simple-oauth2` client factory, the
restify server, the bot adapter, `decodeURIComponent`, `randomBytes`) are
modelled as opaque data capture or as explicit function parameters.
-/

namespace BotAuth

/-- A provider's caller-supplied configuration (`ProviderConfiguration` in
`interfaces.ts`, which is not part of `src/`; fields modelled from their uses
in `AuthenticationMiddleware.ts`: `clientId`, `clientSecret`, optional
`scopes`, optional `buttonText`).  Credentials are `Option` so that a
runtime-absent half is representable. -/
structure ProviderConfiguration where
  clientId : Option String
  clientSecret : Option String
  scopes : Option (List String)
  buttonText : Option String
deriving Repr, DecidableEq

/-- The middleware configuration (`AuthenticationConfig` in `interfaces.ts`):
optional per-provider configuration and the optional not-authenticated
notice.  The `userIsAuthenticated` predicate and `onLoginSuccess` callback it
also carries are externally owned; they appear as explicit parameters /
recorded calls in the turn model below. -/
structure AuthenticationConfig where
  facebook : Option ProviderConfiguration
  activeDirectory : Option ProviderConfiguration
  github : Option ProviderConfiguration
  noUserFoundMessage : Option String
deriving Repr, DecidableEq

/-- One entry of the known-endpoints table (constructor, lines 30-49). -/
structure EndpointConfig where
  tokenBaseUrl : String
  tokenEndpoint : String
  authorizationBaseUrl : String
  authorizationEndpoint : String
deriving Repr, DecidableEq

def facebookEndpoints : EndpointConfig :=
  { tokenBaseUrl := "https://graph.facebook.com"
    tokenEndpoint := "/v3.0/oauth/access_token"
    authorizationBaseUrl := "https://www.facebook.com"
    authorizationEndpoint := "/v3.0/dialog/oauth" }

def activeDirectoryEndpoints : EndpointConfig :=
  { tokenBaseUrl := "https://login.microsoftonline.com"
    tokenEndpoint := "/common/oauth2/v2.0/token"
    authorizationBaseUrl := "https://login.microsoftonline.com"
    authorizationEndpoint := "/common/oauth2/v2.0/authorize" }

def githubEndpoints : EndpointConfig :=
  { tokenBaseUrl := "https://github.com"
    tokenEndpoint := "/login/oauth/access_token"
    authorizationBaseUrl := "https://github.com"
    authorizationEndpoint := "/login/oauth/authorize" }

/-- `this.callbackURL` as assigned in the constructor (line 50); a fixed
constant, independent of the caller-supplied configuration. -/
def callbackURL : String := "http://localhost:3978/auth/callback"

/-- Modelled from the spec: the `StrategyType` enumeration is declared in
`interfaces.ts`, which is absent from `src/`.  The spec (4.1) fixes the
supported provider identifiers as `ActiveDirectory`, `Facebook`, `Github`;
they are modelled as three distinct identifier strings. -/
def StrategyType.ActiveDirectory : String := "ActiveDirectory"

/-- Modelled from the spec: see `StrategyType.ActiveDirectory`. -/
def StrategyType.Facebook : String := "Facebook"

/-- Modelled from the spec: see `StrategyType.ActiveDirectory`. -/
def StrategyType.Github : String := "Github"

/-- The options handed to the external `simple-oauth2` `create` factory
(`ModuleOptions`).  The factory itself is external; a created client is
modelled as the options it captured. -/
structure ModuleOptions where
  clientId : Option String
  clientSecret : Option String
  authorizeHost : Option String
  authorizePath : Option String
  tokenHost : String
  tokenPath : Option String
deriving Repr, DecidableEq

/-- `this.oauthClients` (lines 15-19): one client per provider slot. -/
structure OAuthClients where
  facebookOAuthClient : ModuleOptions
  activeDirectoryOAuthClient : ModuleOptions
  githubOAuthClient : ModuleOptions
deriving Repr, DecidableEq

/-- `initializationModule` (lines 140-148): placeholder credentials used to
pre-populate all three client slots. -/
def initializationModule : ModuleOptions :=
  { clientId := some ""
    clientSecret := some ""
    authorizeHost := none
    authorizePath := none
    tokenHost := activeDirectoryEndpoints.tokenBaseUrl
    tokenPath := none }

/-- `facebookCredentials` (lines 156-167). -/
def facebookCredentials (p : ProviderConfiguration) : ModuleOptions :=
  { clientId := p.clientId
    clientSecret := p.clientSecret
    authorizeHost := some facebookEndpoints.authorizationBaseUrl
    authorizePath := some facebookEndpoints.authorizationEndpoint
    tokenHost := facebookEndpoints.tokenBaseUrl
    tokenPath := some facebookEndpoints.tokenEndpoint }

/-- `activeDirectoryCredentials` (lines 171-182). -/
def activeDirectoryCredentials (p : ProviderConfiguration) : ModuleOptions :=
  { clientId := p.clientId
    clientSecret := p.clientSecret
    authorizeHost := some activeDirectoryEndpoints.authorizationBaseUrl
    authorizePath := some activeDirectoryEndpoints.authorizationEndpoint
    tokenHost := activeDirectoryEndpoints.tokenBaseUrl
    tokenPath := some activeDirectoryEndpoints.tokenEndpoint }

/-- `githubCredentials` (lines 186-197). -/
def githubCredentials (p : ProviderConfiguration) : ModuleOptions :=
  { clientId := p.clientId
    clientSecret := p.clientSecret
    authorizeHost := some githubEndpoints.authorizationBaseUrl
    authorizePath := some githubEndpoints.authorizationEndpoint
    tokenHost := githubEndpoints.tokenBaseUrl
    tokenPath := some githubEndpoints.tokenEndpoint }

/-- `createOAuthClients` (lines 138-200): pre-populate every slot with the
placeholder module, then overwrite the slot of each provider the caller
configured.  The source performs no credential validation and cannot fail. -/
def createOAuthClients (cfg : AuthenticationConfig) : OAuthClients :=
  let clients : OAuthClients :=
    { facebookOAuthClient := initializationModule
      activeDirectoryOAuthClient := initializationModule
      githubOAuthClient := initializationModule }
  let clients :=
    match cfg.facebook with
    | some p => { clients with facebookOAuthClient := facebookCredentials p }
    | none => clients
  let clients :=
    match cfg.activeDirectory with
    | some p => { clients with activeDirectoryOAuthClient := activeDirectoryCredentials p }
    | none => clients
  match cfg.github with
  | some p => { clients with githubOAuthClient := githubCredentials p }
  | none => clients

/-- Modelled from the spec (4.2): a variant of client-set construction that
"must validate that `clientId`/`clientSecret` are both present for any
provider it instantiates; fails fast with `InvalidProviderConfig`
otherwise".  Used only to contrast the spec's words with the source's
`createOAuthClients`, which never validates. -/
def providerCredentialsPresent (p : ProviderConfiguration) : Bool :=
  p.clientId.isSome && p.clientSecret.isSome

/-- Modelled from the spec (4.2): see `providerCredentialsPresent`. -/
def createOAuthClientsChecked (cfg : AuthenticationConfig) :
    Except String OAuthClients :=
  if (cfg.facebook.elim true providerCredentialsPresent &&
      cfg.activeDirectory.elim true providerCredentialsPresent &&
      cfg.github.elim true providerCredentialsPresent) then
    .ok (createOAuthClients cfg)
  else
    .error "InvalidProviderConfig"

/-- The arguments the card builder passes to the external
`authorizationCode.authorizeURL` of a client; the resulting URL is modelled
as this captured request. -/
structure AuthorizeUrlRequest where
  client : ModuleOptions
  redirect_uri : String
  scope : List String
  state : String
deriving Repr, DecidableEq

/-- One button of the login card (lines 213, 223, 233). -/
structure CardAction where
  type : String
  value : AuthorizeUrlRequest
  title : String
deriving Repr, DecidableEq

/-- `createAuthenticationCard` (lines 202-238), reduced to the list of card
actions it builds: the external `CardFactory.thumbnailCard` /
`MessageFactory.attachment` wrappers only package this list. -/
def createAuthenticationCard (clients : OAuthClients)
    (cfg : AuthenticationConfig) : List CardAction :=
  let cardActions : List CardAction := []
  let cardActions :=
    match cfg.facebook with
    | some p =>
      cardActions ++
        [{ type := "openUrl"
           value :=
             { client := clients.facebookOAuthClient
               redirect_uri := callbackURL
               scope := p.scopes.getD ["public_profile"]
               state := StrategyType.Facebook }
           title := p.buttonText.getD "Log in with Facebook" }]
    | none => cardActions
  let cardActions :=
    match cfg.activeDirectory with
    | some p =>
      cardActions ++
        [{ type := "openUrl"
           value :=
             { client := clients.activeDirectoryOAuthClient
               redirect_uri := callbackURL
               scope := p.scopes.getD ["User.Read"]
               state := StrategyType.ActiveDirectory }
           title := p.buttonText.getD "Log in with Microsoft" }]
    | none => cardActions
  match cfg.github with
  | some p =>
    cardActions ++
      [{ type := "openUrl"
         value :=
           { client := clients.githubOAuthClient
             redirect_uri := callbackURL
             scope := p.scopes.getD ["user"]
             state := StrategyType.Github }
         title := p.buttonText.getD "Log in with GitHub" }]
  | none => cardActions

/-- The access token produced by the external exchange; opaque payload. -/
abbrev AccessToken := String

/-- The middleware's mutable session fields (lines 21-23).  `magicCode` is
declared `string` but never initialized in the constructor, so it is
`undefined` (`none`) until the first successful callback; `sentCode` is
likewise uninitialized, which is falsy, modelled `false`. -/
structure MwState where
  magicCode : Option String
  currentAccessToken : Option AccessToken
  sentCode : Bool
deriving Repr, DecidableEq

/-- The state right after the constructor ran. -/
def initialState : MwState :=
  { magicCode := none, currentAccessToken := none, sentCode := false }

/-- The fields of a turn context the middleware reads: `activity.type` and
`activity.text`. -/
structure TurnContext where
  activityType : String
  text : String
deriving Repr, DecidableEq

/-- An activity sent back over the chat channel. -/
inductive SentItem where
  | text (s : String)
  | card (actions : List CardAction)
deriving Repr, DecidableEq

/-- The observable outcome of one `onTurn` invocation: the new middleware
state, the activities sent, whether `next()` was called, and the
`onLoginSuccess` invocations (context and access-token argument). -/
structure TurnResult where
  state : MwState
  sent : List SentItem
  nextCalled : Bool
  loginCalls : List (TurnContext × Option AccessToken)
deriving Repr, DecidableEq

/-- `String.prototype.toLowerCase`, restricted to the per-character lowering
both sides of the comparison use. -/
def jsToLower (s : String) : String := String.mk (s.toList.map Char.toLower)

/-- `handleMagicCode` (lines 79-96).  Returns `none` when
`this.magicCode` is `undefined`: `undefined.toLowerCase()` throws a
`TypeError`.  Otherwise: case-insensitive match invokes `onLoginSuccess`
with the context and `this.currentAccessToken`, resets the three fields and
sends the success notice; a mismatch performs the identical reset and sends
the failure notice. -/
def handleMagicCode (ctx : TurnContext) (st : MwState) :
    Option (MwState × List SentItem × List (TurnContext × Option AccessToken)) :=
  match st.magicCode with
  | none => none
  | some mc =>
    if jsToLower ctx.text = jsToLower mc then
      some ({ magicCode := some "", sentCode := false, currentAccessToken := none },
        [.text "Authentication Success"], [(ctx, st.currentAccessToken)])
    else
      some ({ magicCode := some "", sentCode := false, currentAccessToken := none },
        [.text "Authentication Failure"], [])

/-- `onTurn` (lines 56-77).  `authenticated` is the value of the externally
owned `authenticationConfig.userIsAuthenticated(context)` predicate for this
turn.  `none` models an uncaught exception escaping the turn handler. -/
def onTurn (cfg : AuthenticationConfig) (clients : OAuthClients)
    (authenticated : Bool) (ctx : TurnContext) (st : MwState) :
    Option TurnResult :=
  if ctx.activityType = "message" then
    if !authenticated then
      if !st.sentCode then
        some { state := st
               sent :=
                 (match cfg.noUserFoundMessage with
                  | some m => [SentItem.text m]
                  | none => []) ++
                 [SentItem.card (createAuthenticationCard clients cfg)]
               nextCalled := false
               loginCalls := [] }
      else
        (handleMagicCode ctx st).map fun r =>
          { state := r.1, sent := r.2.1, nextCalled := false, loginCalls := r.2.2 }
    else
      some { state := st, sent := [], nextCalled := true, loginCalls := [] }
  else
    some { state := st, sent := [], nextCalled := true, loginCalls := [] }

/-- `String.prototype.split` with a single-character separator, on character
lists; always returns at least one segment, exactly as in JavaScript. -/
def jsSplit (sep : Char) : List Char → List (List Char)
  | [] => [[]]
  | c :: rest =>
    match jsSplit sep rest with
    | [] => [[]]
    | h :: t => if c = sep then [] :: h :: t else (c :: h) :: t

/-- The query parsing of the callback handler (lines 101 and 107):
`code` is the first `&`-delimited segment with its first 5 characters
dropped (never URL-decoded); `state` is the second segment with its first 6
characters dropped, passed through `decodeURIComponent` (external, the
`decode` parameter).  When the query has no second `&`-delimited segment,
`split("&")[1]` is `undefined` and `.slice(6)` throws a `TypeError`,
modelled as `none`. -/
def parseCallbackQuery (decode : String → String) (q : String) :
    Option (String × String) :=
  match jsSplit '&' q.toList with
  | s0 :: s1 :: _ => some (String.mk (s0.drop 5), decode (String.mk (s1.drop 6)))
  | _ => none

/-- The `switch (state)` of the callback handler (lines 109-122): the three
recognized identifiers select their client; everything else falls through to
the Active Directory client. -/
def selectOAuthClient (clients : OAuthClients) (state : String) : ModuleOptions :=
  if state = StrategyType.ActiveDirectory then clients.activeDirectoryOAuthClient
  else if state = StrategyType.Facebook then clients.facebookOAuthClient
  else if state = StrategyType.Github then clients.githubOAuthClient
  else clients.activeDirectoryOAuthClient

/-- The `tokenConfig` object (lines 102-105). -/
structure TokenConfig where
  code : String
  redirect_uri : String
deriving Repr, DecidableEq

def callbackTokenConfig (code : String) : TokenConfig :=
  { code := code, redirect_uri := callbackURL }

/-- Visible effects of the callback route handler: the `res.send` response
body and the `console.log` of a token-exchange error. -/
inductive CallbackEffect where
  | respond (body : String)
  | logError (tag : String)
deriving Repr, DecidableEq

/-- One lowercase hexadecimal digit, as in Node's hex rendering. -/
def hexDigit (n : Nat) : Char :=
  if n < 10 then Char.ofNat ('0'.toNat + n) else Char.ofNat ('a'.toNat + (n - 10))

/-- One byte as two lowercase hex characters. -/
def byteToHex (b : Nat) : List Char :=
  [hexDigit (b / 16 % 16), hexDigit (b % 16)]

/-- `Buffer.toString('hex')` over the bytes `randomBytes` produced. -/
def bytesToHex (bs : List Nat) : String :=
  String.mk (bs.flatMap byteToHex)

/-- The callback route handler (lines 100-136).  `decode` models
`decodeURIComponent`, `exchange` the external
`authorizationCode.getToken` + `accessToken.create` pipeline (its `Except`
value is the settled promise), and `randomBytes4` the 4 bytes drawn by
`randomBytes(4)`.  Result `none` models a `TypeError` thrown before the
exchange is reached; otherwise the pair is the middleware state after the
handler settles and the effects it performed. -/
def handleCallback (clients : OAuthClients) (decode : String → String)
    (exchange : ModuleOptions → TokenConfig → Except String AccessToken)
    (randomBytes4 : List Nat) (st : MwState) (q : String) :
    Option (MwState × List CallbackEffect) :=
  match parseCallbackQuery decode q with
  | none => none
  | some (code, state) =>
    let tokenConfig := callbackTokenConfig code
    let selectedOAuthClient := selectOAuthClient clients state
    match exchange selectedOAuthClient tokenConfig with
    | .ok accessToken =>
      let magicCode := bytesToHex randomBytes4
      some ({ magicCode := some magicCode
              currentAccessToken := some accessToken
              sentCode := true },
        [.respond ("Please enter the code into the bot: " ++ magicCode)])
    | .error _ => some (st, [.logError "Access Token Error"])

/-- The facebook card action (lines 207-213) as a function of its
configuration: state is the provider identifier verbatim, scope is the
configured scopes or the `public_profile` default, and the title is the
configured text or the provider-specific default. -/
def facebookCardAction (clients : OAuthClients) (p : ProviderConfiguration) :
    CardAction :=
  { type := "openUrl"
    value :=
      { client := clients.facebookOAuthClient
        redirect_uri := callbackURL
        scope := p.scopes.getD ["public_profile"]
        state := StrategyType.Facebook }
    title := p.buttonText.getD "Log in with Facebook" }

/-- The active-directory card action (lines 217-223). -/
def activeDirectoryCardAction (clients : OAuthClients)
    (p : ProviderConfiguration) : CardAction :=
  { type := "openUrl"
    value :=
      { client := clients.activeDirectoryOAuthClient
        redirect_uri := callbackURL
        scope := p.scopes.getD ["User.Read"]
        state := StrategyType.ActiveDirectory }
    title := p.buttonText.getD "Log in with Microsoft" }

/-- The github card action (lines 227-233). -/
def githubCardAction (clients : OAuthClients) (p : ProviderConfiguration) :
    CardAction :=
  { type := "openUrl"
    value :=
      { client := clients.githubOAuthClient
        redirect_uri := callbackURL
        scope := p.scopes.getD ["user"]
        state := StrategyType.Github }
    title := p.buttonText.getD "Log in with GitHub" }

/-- Characterization of the card contents: one optional action per provider,
in facebook, activeDirectory, github order. -/
theorem card_actions_eq (clients : OAuthClients) (cfg : AuthenticationConfig) :
    createAuthenticationCard clients cfg =
      (cfg.facebook.map (facebookCardAction clients)).toList ++
      (cfg.activeDirectory.map (activeDirectoryCardAction clients)).toList ++
      (cfg.github.map (githubCardAction clients)).toList := by
  obtain ⟨fb, ad, gh, nm⟩ := cfg
  cases fb <;> cases ad <;> cases gh <;>
    simp [createAuthenticationCard, facebookCardAction,
      activeDirectoryCardAction, githubCardAction]

/-- The first-contact branch of `onTurn`: a message from an unauthenticated
session with `sentCode` false gets the optional notice and the card, the
message is not forwarded, and the state is left untouched. -/
theorem onTurn_card_branch (cfg : AuthenticationConfig) (clients : OAuthClients)
    (ctx : TurnContext) (st : MwState) (hmsg : ctx.activityType = "message")
    (hsent : st.sentCode = false) :
    onTurn cfg clients false ctx st =
      some { state := st
             sent := (cfg.noUserFoundMessage.map SentItem.text).toList ++
               [SentItem.card (createAuthenticationCard clients cfg)]
             nextCalled := false
             loginCalls := [] } := by
  cases hn : cfg.noUserFoundMessage <;> simp [onTurn, hmsg, hsent, hn]

/-- Claim C1: while the gate awaits a code (`sentCode` true, pending magic
code `M` and access token stored), a user message matching `M`
case-insensitively triggers exactly one `onLoginSuccess` call with the chat
context and the pending token, sends the success notice and clears the
pending fields; any other message triggers zero calls, sends the failure
notice and performs the identical clear; and after either outcome a further
user message triggers zero `onLoginSuccess` calls, so one stored
`PendingAuthentication` yields at most one `onLoginSuccess`. -/
theorem magic_code_single_use (cfg : AuthenticationConfig)
    (clients : OAuthClients) (ctx : TurnContext) (st : MwState) (M : String)
    (tok : AccessToken) (hsent : st.sentCode = true)
    (hmc : st.magicCode = some M) (htok : st.currentAccessToken = some tok)
    (hmsg : ctx.activityType = "message") :
    (jsToLower ctx.text = jsToLower M →
      onTurn cfg clients false ctx st =
        some { state := { magicCode := some "", currentAccessToken := none,
                          sentCode := false }
               sent := [.text "Authentication Success"]
               nextCalled := false
               loginCalls := [(ctx, some tok)] }) ∧
    (jsToLower ctx.text ≠ jsToLower M →
      onTurn cfg clients false ctx st =
        some { state := { magicCode := some "", currentAccessToken := none,
                          sentCode := false }
               sent := [.text "Authentication Failure"]
               nextCalled := false
               loginCalls := [] }) ∧
    (∀ r ctx2, onTurn cfg clients false ctx st = some r →
      ctx2.activityType = "message" →
      (onTurn cfg clients false ctx2 r.state).map TurnResult.loginCalls =
        some []) := by
  refine ⟨fun hEq => ?_, fun hNe => ?_, fun r ctx2 hr hmsg2 => ?_⟩
  · simp [onTurn, hmsg, hsent, handleMagicCode, hmc, htok, hEq]
  · simp [onTurn, hmsg, hsent, handleMagicCode, hmc, htok, hNe]
  · have hfalse : r.state.sentCode = false := by
      by_cases hEq : jsToLower ctx.text = jsToLower M <;>
        simp [onTurn, hmsg, hsent, handleMagicCode, hmc, htok, hEq] at hr <;>
        simp [← hr]
    cases hn : cfg.noUserFoundMessage <;>
      simp [onTurn, hmsg2, hfalse, hn]

/-- Witness for C1 at a concrete input: magic code `a1b2c3d4`, submission
`A1B2C3D4`. -/
theorem magic_code_single_use_witness :
    onTurn ⟨none, none, none, none⟩
        (createOAuthClients ⟨none, none, none, none⟩) false
        ⟨"message", "A1B2C3D4"⟩ ⟨some "a1b2c3d4", some "tok", true⟩ =
      some { state := { magicCode := some "", currentAccessToken := none,
                        sentCode := false }
             sent := [.text "Authentication Success"]
             nextCalled := false
             loginCalls := [(⟨"message", "A1B2C3D4"⟩, some "tok")] } :=
  (magic_code_single_use ⟨none, none, none, none⟩
    (createOAuthClients ⟨none, none, none, none⟩)
    ⟨"message", "A1B2C3D4"⟩ ⟨some "a1b2c3d4", some "tok", true⟩
    "a1b2c3d4" "tok" rfl rfl rfl rfl).1 (by decide)

/-- Counterexample to C2 as stated: a first-contact message (unauthenticated,
`sentCode` false) makes the gate send the notice and the Login Card, but
`sentCode` remains `false` afterwards — `onTurn` never sets it; only the
callback handler does. -/
theorem card_branch_leaves_sentCode_false :
    onTurn ⟨none, none, none, some "Please log in"⟩
        (createOAuthClients ⟨none, none, none, some "Please log in"⟩) false
        ⟨"message", "hello"⟩ initialState =
      some { state := { magicCode := none, currentAccessToken := none,
                        sentCode := false }
             sent := [.text "Please log in", .card []]
             nextCalled := false
             loginCalls := [] } := by
  rfl

/-- Claim C2 (amended): on a user message from an unauthenticated session
with `sentCode` false, the gate emits the optional configured notice then the
Login Card and does not call `next`; it leaves the middleware state — in
particular `sentCode` — unchanged (`sentCode` only becomes true in the
callback handler). -/
theorem first_contact_emits_card (cfg : AuthenticationConfig)
    (clients : OAuthClients) (ctx : TurnContext) (st : MwState)
    (hmsg : ctx.activityType = "message") (hsent : st.sentCode = false) :
    onTurn cfg clients false ctx st =
      some { state := st
             sent := (cfg.noUserFoundMessage.map SentItem.text).toList ++
               [SentItem.card (createAuthenticationCard clients cfg)]
             nextCalled := false
             loginCalls := [] } :=
  onTurn_card_branch cfg clients ctx st hmsg hsent

/-- Witness for C2's amended theorem at a concrete input. -/
theorem first_contact_emits_card_witness :
    onTurn ⟨none, none, none, some "Hi"⟩
        (createOAuthClients ⟨none, none, none, some "Hi"⟩) false
        ⟨"message", "hello"⟩ initialState =
      some { state := initialState
             sent := [.text "Hi", .card []]
             nextCalled := false
             loginCalls := [] } :=
  first_contact_emits_card ⟨none, none, none, some "Hi"⟩
    (createOAuthClients ⟨none, none, none, some "Hi"⟩)
    ⟨"message", "hello"⟩ initialState rfl rfl

/-- Counterexample to C3 as stated: with the pending authentication already
consumed (`magicCode` reset to the empty string, `sentCode` false), a
further submission is not treated as a magic code at all — the gate sends
the Login Card, not the failure notice of the mismatch branch. -/
theorem no_pending_not_mismatch :
    onTurn ⟨none, none, none, none⟩
        (createOAuthClients ⟨none, none, none, none⟩) false
        ⟨"message", "a1b2c3d4"⟩ ⟨some "", none, false⟩ =
      some { state := { magicCode := some "", currentAccessToken := none,
                        sentCode := false }
             sent := [.card []]
             nextCalled := false
             loginCalls := [] } ∧
    SentItem.text "Authentication Failure" ∉
      [SentItem.card ([] : List CardAction)] :=
  ⟨by rfl, by decide⟩

/-- Claim C3 (amended): when no `PendingAuthentication` exists, `sentCode`
is false, so the gate never reaches the magic-code comparison and cannot
throw there: the turn settles (no exception), `onLoginSuccess` is called
zero times, the state is unchanged, and the gate emits the optional notice
and the Login Card rather than the mismatch branch's failure notice. -/
theorem no_pending_never_throws (cfg : AuthenticationConfig)
    (clients : OAuthClients) (ctx : TurnContext) (st : MwState)
    (hmsg : ctx.activityType = "message") (hsent : st.sentCode = false) :
    ∃ r, onTurn cfg clients false ctx st = some r ∧
      r.loginCalls = [] ∧ r.state = st ∧
      r.sent = (cfg.noUserFoundMessage.map SentItem.text).toList ++
        [SentItem.card (createAuthenticationCard clients cfg)] :=
  ⟨_, onTurn_card_branch cfg clients ctx st hmsg hsent, rfl, rfl, rfl⟩

/-- Witness for C3's amended theorem at a concrete input (the never-stored
initial state). -/
theorem no_pending_never_throws_witness :
    ∃ r, onTurn ⟨none, none, none, none⟩
        (createOAuthClients ⟨none, none, none, none⟩) false
        ⟨"message", "guess"⟩ initialState = some r ∧
      r.loginCalls = [] ∧ r.state = initialState ∧
      r.sent = (Option.map SentItem.text
          (none : Option String)).toList ++
        [SentItem.card (createAuthenticationCard
          (createOAuthClients ⟨none, none, none, none⟩)
          ⟨none, none, none, none⟩)] :=
  no_pending_never_throws ⟨none, none, none, none⟩
    (createOAuthClients ⟨none, none, none, none⟩)
    ⟨"message", "guess"⟩ initialState rfl rfl

/-- Claim C4: when the code-for-token exchange fails, the callback handler
settles without crashing, logs the error, and leaves `magicCode`,
`currentAccessToken` and `sentCode` exactly as they were before the callback
arrived. -/
theorem token_exchange_failure_preserves_state (clients : OAuthClients)
    (decode : String → String)
    (exchange : ModuleOptions → TokenConfig → Except String AccessToken)
    (bytes : List Nat) (st : MwState) (q code state : String) (err : String)
    (hparse : parseCallbackQuery decode q = some (code, state))
    (hex : exchange (selectOAuthClient clients state)
      (callbackTokenConfig code) = .error err) :
    handleCallback clients decode exchange bytes st q =
      some (st, [.logError "Access Token Error"]) := by
  simp [handleCallback, hparse, hex]

/-- Witness for C4 at a concrete input: query `code=a&state=b`, an exchange
that rejects. -/
theorem token_exchange_failure_preserves_state_witness :
    handleCallback (createOAuthClients ⟨none, none, none, none⟩) id
        (fun _ _ => .error "boom") [1, 2, 3, 4]
        ⟨some "old", some "oldTok", true⟩ "code=a&state=b" =
      some (⟨some "old", some "oldTok", true⟩,
        [.logError "Access Token Error"]) :=
  token_exchange_failure_preserves_state
    (createOAuthClients ⟨none, none, none, none⟩) id
    (fun _ _ => .error "boom") [1, 2, 3, 4]
    ⟨some "old", some "oldTok", true⟩ "code=a&state=b" "a" "b" "boom"
    (by rfl) (by rfl)

/-- Counterexample to C5 as stated: a configuration whose facebook entry has
a `clientId` but no `clientSecret` is accepted by `createOAuthClients`, which
builds a client capturing the missing half; no `InvalidProviderConfig`
failure occurs anywhere in the source — only the spec-modelled checked
variant rejects it. -/
theorem invalid_config_not_rejected :
    createOAuthClients ⟨some ⟨some "app-id", none, none, none⟩,
        none, none, none⟩ =
      { facebookOAuthClient :=
          facebookCredentials ⟨some "app-id", none, none, none⟩
        activeDirectoryOAuthClient := initializationModule
        githubOAuthClient := initializationModule } ∧
    createOAuthClientsChecked ⟨some ⟨some "app-id", none, none, none⟩,
        none, none, none⟩ = .error "InvalidProviderConfig" :=
  ⟨rfl, rfl⟩

/-- Claim C5 (amended): `createOAuthClients` performs no credential
validation and cannot fail: every configured provider slot is filled with a
client capturing the supplied credential values verbatim — missing halves
included — and unconfigured slots keep the placeholder module. -/
theorem create_oauth_clients_no_validation (cfg : AuthenticationConfig) :
    (createOAuthClients cfg).facebookOAuthClient =
      (cfg.facebook.map facebookCredentials).getD initializationModule ∧
    (createOAuthClients cfg).activeDirectoryOAuthClient =
      (cfg.activeDirectory.map activeDirectoryCredentials).getD
        initializationModule ∧
    (createOAuthClients cfg).githubOAuthClient =
      (cfg.github.map githubCredentials).getD initializationModule := by
  obtain ⟨fb, ad, gh, nm⟩ := cfg
  cases fb <;> cases ad <;> cases gh <;> simp [createOAuthClients]

/-- Counterexample to C6 as stated: a callback whose query has no second
`&`-delimited segment (state absent) makes the handler throw a `TypeError`
while slicing `split("&")[1]`, before any routing: the token exchange is
never routed anywhere, let alone through the directory provider's client. -/
theorem absent_state_throws_before_routing :
    handleCallback (createOAuthClients ⟨none, none, none, none⟩) id
      (fun _ _ => .ok "tok") [1, 2, 3, 4] initialState "code=abc" = none := by
  rfl

/-- Claim C6 (amended): whenever the decoded state value exists (the query
has a second `&`-delimited segment) but is empty or not one of the three
recognized provider identifiers, the switch selects the Active Directory
client, and the handler settles without an unhandled error; a query with no
second segment at all instead throws during parsing, before routing. -/
theorem unknown_state_defaults_to_active_directory (clients : OAuthClients)
    (decode : String → String)
    (exchange : ModuleOptions → TokenConfig → Except String AccessToken)
    (bytes : List Nat) (st : MwState) (q code s : String)
    (had : s ≠ StrategyType.ActiveDirectory)
    (hfb : s ≠ StrategyType.Facebook) (hgh : s ≠ StrategyType.Github) :
    selectOAuthClient clients s = clients.activeDirectoryOAuthClient ∧
    (parseCallbackQuery decode q = some (code, s) →
      (handleCallback clients decode exchange bytes st q).isSome) := by
  constructor
  · simp [selectOAuthClient, had, hfb, hgh]
  · intro hp
    cases hx : exchange (selectOAuthClient clients s)
        (callbackTokenConfig code) <;>
      simp [handleCallback, hp, hx]

/-- Witness for C6's amended theorem at a concrete input: empty decoded
state, query `code=a&state=`. -/
theorem unknown_state_defaults_witness :
    selectOAuthClient (createOAuthClients ⟨none, none, none, none⟩) "" =
      (createOAuthClients
        ⟨none, none, none, none⟩).activeDirectoryOAuthClient ∧
    (parseCallbackQuery id "code=a&state=" = some ("a", "") →
      (handleCallback (createOAuthClients ⟨none, none, none, none⟩) id
        (fun _ _ => .ok "tok") [1, 2, 3, 4] initialState
        "code=a&state=").isSome) :=
  unknown_state_defaults_to_active_directory
    (createOAuthClients ⟨none, none, none, none⟩) id
    (fun _ _ => .ok "tok") [1, 2, 3, 4] initialState
    "code=a&state=" "a" "" (by decide) (by decide) (by decide)

/-- `jsSplit` always yields at least one segment, as JavaScript's `split`. -/
theorem jsSplit_ne_nil (sep : Char) (l : List Char) : jsSplit sep l ≠ [] := by
  cases l with
  | nil => simp [jsSplit]
  | cons c rest =>
    simp only [jsSplit]
    cases jsSplit sep rest with
    | nil => simp
    | cons h t => by_cases hc : c = sep <;> simp [hc]

/-- A separator-free list splits into the single segment it is. -/
theorem jsSplit_no_sep (sep : Char) (l : List Char) (h : sep ∉ l) :
    jsSplit sep l = [l] := by
  induction l with
  | nil => rfl
  | cons c cs ih =>
    have h1 : ¬c = sep := fun e => h (by simp [e])
    have h2 : sep ∉ cs := fun hm => h (List.mem_cons_of_mem _ hm)
    simp [jsSplit, ih h2, h1]

/-- Splitting at the first separator occurrence peels off the prefix. -/
theorem jsSplit_append (sep : Char) (a b : List Char) (ha : sep ∉ a) :
    jsSplit sep (a ++ sep :: b) = a :: jsSplit sep b := by
  induction a with
  | nil =>
    simp only [List.nil_append, jsSplit]
    cases hb : jsSplit sep b with
    | nil => exact absurd hb (jsSplit_ne_nil sep b)
    | cons x t => simp
  | cons c cs ih =>
    have h1 : ¬c = sep := fun e => ha (by simp [e])
    have h2 : sep ∉ cs := fun hm => ha (List.mem_cons_of_mem _ hm)
    show (match jsSplit sep (cs ++ sep :: b) with
      | [] => [[]]
      | h :: t => if c = sep then [] :: h :: t else (c :: h) :: t) =
        (c :: cs) :: jsSplit sep b
    rw [ih h2]
    simp [h1]

/-- Claim C7: for a raw query of the form `code=...&state=...` (both values
free of `&`), the handler extracts the code as everything after the 5th
character of the first `&`-delimited segment, undecoded, and the state as
everything after the 6th character of the second segment, URL-decoded
(`decode` models `decodeURIComponent`). -/
theorem callback_query_positional_parse (decode : String → String)
    (c s : String) (hc : ('&' : Char) ∉ c.toList)
    (hs : ('&' : Char) ∉ s.toList) :
    parseCallbackQuery decode ("code=" ++ c ++ "&state=" ++ s) =
      some (c, decode s) := by
  have hc' : ('&' : Char) ∉ "code=".toList ++ c.toList := by
    intro hm
    rcases List.mem_append.mp hm with h | h
    · revert h; decide
    · exact hc h
  have hs' : ('&' : Char) ∉ "state=".toList ++ s.toList := by
    intro hm
    rcases List.mem_append.mp hm with h | h
    · revert h; decide
    · exact hs h
  have hq : ("code=" ++ c ++ "&state=" ++ s).toList =
      ("code=".toList ++ c.toList) ++ '&' :: ("state=".toList ++ s.toList) := by
    show ("code=" ++ c ++ "&state=" ++ s).data = _
    rw [String.data_append, String.data_append, String.data_append,
      show "&state=".data = '&' :: "state=".data from rfl]
    simp [List.append_assoc]
  have d1 : List.drop 5 ("code=".toList ++ c.toList) = c.toList := by
    have h5 := List.drop_left "code=".toList c.toList
    rwa [show "code=".toList.length = 5 from rfl] at h5
  have d2 : List.drop 6 ("state=".toList ++ s.toList) = s.toList := by
    have h6 := List.drop_left "state=".toList s.toList
    rwa [show "state=".toList.length = 6 from rfl] at h6
  unfold parseCallbackQuery
  rw [hq, jsSplit_append '&' _ _ hc', jsSplit_no_sep '&' _ hs']
  show some (String.mk (List.drop 5 ("code=".toList ++ c.toList)),
      decode (String.mk (List.drop 6 ("state=".toList ++ s.toList)))) =
    some (c, decode s)
  rw [d1, d2]
  rfl

/-- Witness for C7 at a concrete input: a percent-escaped code is returned
verbatim, the state goes through the decoder. -/
theorem callback_query_positional_parse_witness :
    parseCallbackQuery (fun x => x ++ "!")
        ("code=" ++ "a%2Fb" ++ "&state=" ++ "Github") =
      some ("a%2Fb", "Github" ++ "!") :=
  callback_query_positional_parse (fun x => x ++ "!") "a%2Fb" "Github"
    (by decide) (by decide)

/-- Two lowercase hex characters per byte. -/
theorem flatMap_byteToHex_length (bs : List Nat) :
    (bs.flatMap byteToHex).length = 2 * bs.length := by
  induction bs with
  | nil => rfl
  | cons b t ih => simp [List.flatMap_cons, byteToHex, ih]; omega

/-- The hex rendering draws only hexadecimal characters. -/
theorem hexDigit_mem (n : Nat) (h : n < 16) :
    hexDigit n ∈ "0123456789abcdef".toList := by
  have H : ∀ m, m < 16 → hexDigit m ∈ "0123456789abcdef".toList := by decide
  exact H n h

/-- Every character of a hex rendering is a hexadecimal character. -/
theorem flatMap_byteToHex_mem (bs : List Nat) :
    ∀ ch ∈ bs.flatMap byteToHex, ch ∈ "0123456789abcdef".toList := by
  induction bs with
  | nil => intro ch h; simp at h
  | cons b t ih =>
    intro ch h
    simp only [List.flatMap_cons, byteToHex, List.cons_append, List.nil_append,
      List.mem_cons] at h
    rcases h with rfl | rfl | h
    · exact hexDigit_mem _ (Nat.mod_lt _ (by norm_num))
    · exact hexDigit_mem _ (Nat.mod_lt _ (by norm_num))
    · exact ih ch h

/-- Claim C8: on a successful exchange the handler stores the freshly minted
magic code, the access token and `sentCode = true` — overwriting whatever
pending state existed, since the stored record does not depend on it — and
responds with exactly `Please enter the code into the bot: <magicCode>`,
where the magic code is the hex rendering of the 4 random bytes: 8
hexadecimal characters. -/
theorem callback_success_mints_magic_code (clients : OAuthClients)
    (decode : String → String)
    (exchange : ModuleOptions → TokenConfig → Except String AccessToken)
    (bytes : List Nat) (st : MwState) (q code state : String)
    (tok : AccessToken)
    (hparse : parseCallbackQuery decode q = some (code, state))
    (hex : exchange (selectOAuthClient clients state)
      (callbackTokenConfig code) = .ok tok)
    (hlen : bytes.length = 4) :
    handleCallback clients decode exchange bytes st q =
      some ({ magicCode := some (bytesToHex bytes)
              currentAccessToken := some tok
              sentCode := true },
        [.respond ("Please enter the code into the bot: " ++
          bytesToHex bytes)]) ∧
    (bytesToHex bytes).length = 8 ∧
    (∀ ch ∈ (bytesToHex bytes).toList, ch ∈ "0123456789abcdef".toList) := by
  refine ⟨?_, ?_, ?_⟩
  · simp [handleCallback, hparse, hex]
  · show (bytes.flatMap byteToHex).length = 8
    rw [flatMap_byteToHex_length, hlen]
  · intro ch h
    exact flatMap_byteToHex_mem bytes ch h

/-- Witness for C8 at a concrete input: bytes `a1 b2 c3 d4`. -/
theorem callback_success_mints_magic_code_witness :
    handleCallback (createOAuthClients ⟨none, none, none, none⟩) id
        (fun _ _ => .ok "tok") [161, 178, 195, 212]
        ⟨some "old", some "oldTok", true⟩ "code=a&state=Github" =
      some ({ magicCode := some "a1b2c3d4"
              currentAccessToken := some "tok"
              sentCode := true },
        [.respond "Please enter the code into the bot: a1b2c3d4"]) :=
  (callback_success_mints_magic_code
    (createOAuthClients ⟨none, none, none, none⟩) id
    (fun _ _ => .ok "tok") [161, 178, 195, 212]
    ⟨some "old", some "oldTok", true⟩ "code=a&state=Github" "a" "Github"
    "tok" (by rfl) (by rfl) (by rfl)).1

/-- Claim C9: the login card holds exactly one action per configured
provider (in facebook, activeDirectory, github order) and zero for
unconfigured ones; each action's authorization request carries the
provider's identifier verbatim as state, the configured scopes or the
provider default when unspecified, and the configured button text or the
provider-specific `Log in with X` default; no configured provider gives the
empty card, not an error. -/
theorem login_card_actions (clients : OAuthClients)
    (cfg : AuthenticationConfig) :
    createAuthenticationCard clients cfg =
      (cfg.facebook.map (facebookCardAction clients)).toList ++
      (cfg.activeDirectory.map (activeDirectoryCardAction clients)).toList ++
      (cfg.github.map (githubCardAction clients)).toList ∧
    (createAuthenticationCard clients cfg).countP
        (fun a => a.value.state == StrategyType.Facebook) =
      (if cfg.facebook.isSome then 1 else 0) ∧
    (createAuthenticationCard clients cfg).countP
        (fun a => a.value.state == StrategyType.ActiveDirectory) =
      (if cfg.activeDirectory.isSome then 1 else 0) ∧
    (createAuthenticationCard clients cfg).countP
        (fun a => a.value.state == StrategyType.Github) =
      (if cfg.github.isSome then 1 else 0) ∧
    (createAuthenticationCard clients cfg = [] ↔
      cfg.facebook = none ∧ cfg.activeDirectory = none ∧
        cfg.github = none) := by
  obtain ⟨fb, ad, gh, nm⟩ := cfg
  cases fb <;> cases ad <;> cases gh <;>
    simp [createAuthenticationCard, facebookCardAction,
      activeDirectoryCardAction, githubCardAction, List.countP_cons,
      StrategyType.Facebook, StrategyType.ActiveDirectory, StrategyType.Github]

/-- Witness for C9 at a concrete input: facebook and github configured,
custom github scopes and button text. -/
theorem login_card_actions_witness :
    createAuthenticationCard
        (createOAuthClients ⟨some ⟨some "f", some "fs", none, none⟩, none,
          some ⟨some "g", some "gs", some ["repo"], some "GH"⟩, none⟩)
        ⟨some ⟨some "f", some "fs", none, none⟩, none,
          some ⟨some "g", some "gs", some ["repo"], some "GH"⟩, none⟩ =
      [facebookCardAction
        (createOAuthClients ⟨some ⟨some "f", some "fs", none, none⟩, none,
          some ⟨some "g", some "gs", some ["repo"], some "GH"⟩, none⟩)
        ⟨some "f", some "fs", none, none⟩,
       githubCardAction
        (createOAuthClients ⟨some ⟨some "f", some "fs", none, none⟩, none,
          some ⟨some "g", some "gs", some ["repo"], some "GH"⟩, none⟩)
        ⟨some "g", some "gs", some ["repo"], some "GH"⟩] :=
  (login_card_actions
    (createOAuthClients ⟨some ⟨some "f", some "fs", none, none⟩, none,
      some ⟨some "g", some "gs", some ["repo"], some "GH"⟩, none⟩)
    ⟨some ⟨some "f", some "fs", none, none⟩, none,
      some ⟨some "g", some "gs", some ["repo"], some "GH"⟩, none⟩).1

/-- Claim C10: the callback URL is the fixed constant
`http://localhost:3978/auth/callback` — a plain definition independent of
the caller-supplied configuration — every card action's authorization
request carries it as `redirect_uri`, the token-exchange configuration
carries the same constant, and the callback handler only ever consults the
exchange function at that redirect URI. -/
theorem redirect_uri_constant :
    callbackURL = "http://localhost:3978/auth/callback" ∧
    (∀ clients cfg, ∀ a ∈ createAuthenticationCard clients cfg,
      a.value.redirect_uri = callbackURL) ∧
    (∀ code, (callbackTokenConfig code).redirect_uri = callbackURL) ∧
    (∀ clients decode e1 e2 bytes st q,
      (∀ m tc, tc.redirect_uri = callbackURL → e1 m tc = e2 m tc) →
      handleCallback clients decode e1 bytes st q =
        handleCallback clients decode e2 bytes st q) := by
  refine ⟨rfl, ?_, fun code => rfl, ?_⟩
  · intro clients cfg a ha
    rw [card_actions_eq] at ha
    rcases List.mem_append.mp ha with h | h
    · rcases List.mem_append.mp h with h' | h'
      · cases hfb : cfg.facebook with
        | none => rw [hfb] at h'; simp at h'
        | some p => rw [hfb] at h'; simp at h'; rw [h']; rfl
      · cases had : cfg.activeDirectory with
        | none => rw [had] at h'; simp at h'
        | some p => rw [had] at h'; simp at h'; rw [h']; rfl
    · cases hgh : cfg.github with
      | none => rw [hgh] at h; simp at h
      | some p => rw [hgh] at h; simp at h; rw [h]; rfl
  · intro clients decode e1 e2 bytes st q h
    unfold handleCallback
    cases hp : parseCallbackQuery decode q with
    | none => rfl
    | some pr =>
      obtain ⟨code, state⟩ := pr
      have he := h (selectOAuthClient clients state)
        (callbackTokenConfig code) rfl
      simp [he]

/-- Witness for C10 at a concrete input: the facebook action of a concrete
card carries the constant callback URL. -/
theorem redirect_uri_constant_witness :
    (facebookCardAction
        (createOAuthClients ⟨some ⟨some "f", some "s", none, none⟩, none,
          none, none⟩)
        ⟨some "f", some "s", none, none⟩).value.redirect_uri = callbackURL :=
  redirect_uri_constant.2.1
    (createOAuthClients ⟨some ⟨some "f", some "s", none, none⟩, none,
      none, none⟩)
    ⟨some ⟨some "f", some "s", none, none⟩, none, none, none⟩
    (facebookCardAction
      (createOAuthClients ⟨some ⟨some "f", some "s", none, none⟩, none,
        none, none⟩)
      ⟨some "f", some "s", none, none⟩)
    (by decide)

end BotAuth
